import Mathlib

/-!
Verification of the asynchronous state-transition poller and related helpers of the
`terraform-provider-ncloud` repository (SES and CDSS cluster resources, singular data
sources, memory-size parsing), as a shallow embedding in Lean 4.

Conventions:
* time is measured in whole seconds (`Nat`);
* a poll session is driven by a finite script of fetch outcomes; `runPoll` returns
  `none` when the script is exhausted while the session is still pending (the real
  loop would keep polling), and `some r` once the session resolves to a result `r`;
* the terraform local identifier is a `String`, with `""` meaning "unset", exactly as
  in the SDK (`d.Id()` is the empty string before `d.SetId` is first called).
-/

namespace Ncloud

/-- Outcome of one invocation of a poll refresh callback: either a normalized
state label, or an error returned by the callback itself. -/
inductive FetchOutcome where
  | ok (state : String)
  | err
  deriving DecidableEq, Repr

/-- Result of a resolved poll session, tagged with the number of fetch calls issued. -/
inductive PollResult where
  | success (calls : Nat)
  | fetchFailed (calls : Nat)
  | unexpectedState (state : String) (calls : Nat)
  | timeout (calls : Nat)
  deriving DecidableEq, Repr

/-- Configuration of one polling session, mirroring the fields of the
`resource.StateChangeConf` values built by the `waitFor*` functions:
pending state labels, target state labels, overall timeout, minimum poll
interval (`MinTimeout`), and initial delay (`Delay`). All durations in seconds. -/
structure PollConf where
  pending : List String
  target : List String
  timeout : Nat
  minTimeout : Nat
  delay : Nat

/-- Modelled from the spec: the generic poll loop of the provider framework
(`StateChangeConf.WaitForStateContext`), which is not under `src/`; §4.1 of the
spec describes it: delay once, then poll at the configured minimum interval;
succeed as soon as a fetch reports a state in the target set; fail with
`UnexpectedState` on a state that is neither pending nor target; fail with
`FetchFailed` as soon as the fetch callback itself errors; fail with `Timeout`
once the deadline elapses while still pending, issuing no fetch call at or
after the deadline. `elapsed` is the time at which the next fetch would be
issued, `calls` the number of fetch calls issued so far. -/
def runPollAux (conf : PollConf) : List FetchOutcome → Nat → Nat → Option PollResult
  | [], elapsed, calls =>
    if conf.timeout ≤ elapsed then some (.timeout calls) else none
  | f :: rest, elapsed, calls =>
    if conf.timeout ≤ elapsed then some (.timeout calls)
    else
      match f with
      | .err => some (.fetchFailed (calls + 1))
      | .ok s =>
        if s ∈ conf.target then some (.success (calls + 1))
        else if s ∈ conf.pending then
          runPollAux conf rest (elapsed + conf.minTimeout) (calls + 1)
        else some (.unexpectedState s (calls + 1))

/-- Run a full poll session: first fetch after the initial delay, no calls issued yet. -/
def runPoll (conf : PollConf) (fetches : List FetchOutcome) : Option PollResult :=
  runPollAux conf fetches conf.delay 0

/-! ### SES cluster status constants (ses_cluster.go) -/

def SESStatusCreatingCode : String := "creating"
def SESStatusChangingCode : String := "changing"
def SESStatusWorkingCode : String := "working"
def SESStatusRunningCode : String := "running"
def SESStatusDeletingCode : String := "deleting"
def SESStatusReturnCode : String := "return"
def SESStatusNullCode : String := "null"

/-! ### CDSS cluster status constants (cdss_cluster.go) -/

def CDSSStatusCreating : String := "creating"
def CDSSStatusChanging : String := "changing"
def CDSSStatusRunning : String := "running"
def CDSSStatusDeleting : String := "deleting"
def CDSSStatusError : String := "error"
def CDSSStatusReturn : String := "return"
def CDSSStatusNull : String := "null"

/-- Outcome of one cluster lookup (`GetSESCluster` / `getCDSSCluster`): the call
returned a cluster with the given status, returned successfully with no cluster
(`cluster == nil`), or itself returned an error. -/
inductive ClusterLookup where
  | found (status : String)
  | notFound
  | lookupError
  deriving DecidableEq, Repr

/-- The `Refresh` closure shared by `waitForSESClusterActive` and
`waitForSESClusterDeletion` (ses_cluster.go): an error from `GetSESCluster` is
returned as-is (`return nil, "", err`); a nil cluster maps to the
`SESStatusNullCode` sentinel; otherwise the cluster's `ClusterStatus` is the state. -/
def sesClusterRefresh : ClusterLookup → FetchOutcome
  | .found s => .ok s
  | .notFound => .ok SESStatusNullCode
  | .lookupError => .err

/-- The `Refresh` closure shared by `waitForCDSSClusterActive` and
`waitForCDSSClusterDeletion` (cdss_cluster.go), same shape as the SES one. -/
def cdssClusterRefresh : ClusterLookup → FetchOutcome
  | .found s => .ok s
  | .notFound => .ok CDSSStatusNull
  | .lookupError => .err

/-- `StateChangeConf` of `waitForSESClusterActive` (ses_cluster.go):
Pending {creating, changing}, Target {running}, MinTimeout 3s, Delay 2s;
the timeout is the resource's configured create timeout. -/
def sesClusterActiveConf (timeout : Nat) : PollConf :=
  { pending := [SESStatusCreatingCode, SESStatusChangingCode]
    target := [SESStatusRunningCode]
    timeout := timeout
    minTimeout := 3
    delay := 2 }

/-- `StateChangeConf` of `waitForSESClusterDeletion` (ses_cluster.go):
Pending {running, deleting}, Target {return}, MinTimeout 3s, Delay 2s. -/
def sesClusterDeletionConf (timeout : Nat) : PollConf :=
  { pending := [SESStatusRunningCode, SESStatusDeletingCode]
    target := [SESStatusReturnCode]
    timeout := timeout
    minTimeout := 3
    delay := 2 }

/-- `StateChangeConf` of `waitForCDSSClusterActive` (cdss_cluster.go):
Pending {creating, changing}, Target {running}, MinTimeout 3s, Delay 2s. -/
def cdssClusterActiveConf (timeout : Nat) : PollConf :=
  { pending := [CDSSStatusCreating, CDSSStatusChanging]
    target := [CDSSStatusRunning]
    timeout := timeout
    minTimeout := 3
    delay := 2 }

/-- `StateChangeConf` of `waitForCDSSClusterDeletion` (cdss_cluster.go):
Pending {deleting}, Target {return}, MinTimeout 3s, Delay 2s. -/
def cdssClusterDeletionConf (timeout : Nat) : PollConf :=
  { pending := [CDSSStatusDeleting]
    target := [CDSSStatusReturn]
    timeout := timeout
    minTimeout := 3
    delay := 2 }

/-- `waitForSESClusterActive` (ses_cluster.go), driven by a script of lookup outcomes. -/
def waitForSESClusterActive (timeout : Nat) (lookups : List ClusterLookup) :
    Option PollResult :=
  runPoll (sesClusterActiveConf timeout) (lookups.map sesClusterRefresh)

/-- `waitForSESClusterDeletion` (ses_cluster.go). -/
def waitForSESClusterDeletion (timeout : Nat) (lookups : List ClusterLookup) :
    Option PollResult :=
  runPoll (sesClusterDeletionConf timeout) (lookups.map sesClusterRefresh)

/-- `waitForCDSSClusterActive` (cdss_cluster.go). -/
def waitForCDSSClusterActive (timeout : Nat) (lookups : List ClusterLookup) :
    Option PollResult :=
  runPoll (cdssClusterActiveConf timeout) (lookups.map cdssClusterRefresh)

/-- `waitForCDSSClusterDeletion` (cdss_cluster.go). -/
def waitForCDSSClusterDeletion (timeout : Nat) (lookups : List ClusterLookup) :
    Option PollResult :=
  runPoll (cdssClusterDeletionConf timeout) (lookups.map cdssClusterRefresh)

/-! ### Cluster create operations -/

/-- `resourceNcloudSESClusterCreate` (ses_cluster.go), the create → wait → SetId
block: issue `CreateClusterUsingPOST` (`apiResult` is its outcome: `none` = error,
`some id` = the returned `ServiceGroupInstanceNo` rendered by `strconv.Itoa`);
on API success, wait for the cluster to become active, returning the wait error
if it fails; only after the wait succeeds commit the id with `d.SetId(id)`.
Returns `none` when the modelled poll script is exhausted unresolved, otherwise
`some (localId, errored)` where `localId` is `d.Id()` as control leaves the
block (handing off to the read on success); `""` means unset, its initial value
for a new resource. -/
def resourceNcloudSESClusterCreate (apiResult : Option String) (timeout : Nat)
    (lookups : List ClusterLookup) : Option (String × Bool) :=
  match apiResult with
  | none => some ("", true)
  | some id =>
    match waitForSESClusterActive timeout lookups with
    | none => none
    | some (.success _) => some (id, false)
    | some _ => some ("", true)

/-- `resourceNcloudCDSSClusterCreate` (cdss_cluster.go), the create → wait → SetId
block, with the same shape as the SES one. -/
def resourceNcloudCDSSClusterCreate (apiResult : Option String) (timeout : Nat)
    (lookups : List ClusterLookup) : Option (String × Bool) :=
  match apiResult with
  | none => some ("", true)
  | some id =>
    match waitForCDSSClusterActive timeout lookups with
    | none => none
    | some (.success _) => some (id, false)
    | some _ => some ("", true)

/-! ### Node-count update checks -/

/-- Result of a node-count update check: which add-nodes request body (if any)
was sent to the node-change API, and which error (if any) the check returned.
`issued = none` means no node-change API call was made. -/
structure NodeChangeOutcome (β : Type) where
  issued : Option β
  err : Option String
  deriving DecidableEq, Repr

/-- Go `int32` wrap-around of a mathematical integer. -/
def wrap32 (x : Int) : Int := (x + 2 ^ 31) % 2 ^ 32 - 2 ^ 31

/-- `checkDataNodeChanged` (ses_cluster.go): when the `data_node` block changed,
compare old and new `count` (as `int32`). Increase: wait for the cluster to be
active, send `AddNodesInClusterRequestVo` with `NewDataNodeCount =
strconv.Itoa(new-old)`, wait again. Decrease: return
"data node count cannot be decreased" without calling the node-change API.
Equal (or no change): do nothing. `wait1Ok`, `apiOk`, `wait2Ok` are the outcomes
of the surrounding wait and API calls. -/
def checkDataNodeChanged (hasChanges : Bool) (oldCount newCount : Int)
    (wait1Ok apiOk wait2Ok : Bool) : NodeChangeOutcome String :=
  if hasChanges then
    if oldCount < newCount then
      if !wait1Ok then ⟨none, some "error waiting for SES Cluster to become activating"⟩
      else
        let req := toString (wrap32 (newCount - oldCount))
        if !apiOk then ⟨some req, some "error Add Nodes to SES Cluster"⟩
        else if !wait2Ok then ⟨some req, some "error waiting for SES Cluster to become activating"⟩
        else ⟨some req, none⟩
    else if oldCount > newCount then ⟨none, some "data node count cannot be decreased"⟩
    else ⟨none, none⟩
  else ⟨none, none⟩

/-- `checkNodeCountChanged` (cdss_cluster.go): the CDSS analogue for the
`broker_nodes` block; the add-nodes request carries
`NewBrokerNodeCount = new-old` as an `int32`, and a decrease returns
"broker node count cannot be decreased" without calling the node-change API. -/
def checkNodeCountChanged (hasChanges : Bool) (oldCount newCount : Int)
    (wait1Ok apiOk wait2Ok : Bool) : NodeChangeOutcome Int :=
  if hasChanges then
    if oldCount < newCount then
      if !wait1Ok then ⟨none, some "error waiting for CDSS Cluster to become activating"⟩
      else
        let req := wrap32 (newCount - oldCount)
        if !apiOk then ⟨some req, some "error Add Nodes to CDSS Cluster"⟩
        else if !wait2Ok then ⟨some req, some "error waiting for CDSS Cluster to become activating"⟩
        else ⟨some req, none⟩
    else if oldCount > newCount then ⟨none, some "broker node count cannot be decreased"⟩
    else ⟨none, none⟩
  else ⟨none, none⟩

/-! ### Singular data source reads -/

/-- Modelled from the spec: `verify.ValidateOneResult` (internal/verify, not
under `src/`), called by the singular data source reads; it returns an error
unless the result count is exactly one. `true` = no error. -/
def validateOneResult (resultCount : Nat) : Bool := resultCount == 1

/-- `dataSourceNcloudServerImageRead` (server_image_data_source.go): fetch the
filtered server image product list (`fetched = none` models an error from
`getServerImageProductListFiltered`, `some resources` the filtered list),
require exactly one result via `verify.ValidateOneResult`, then set the
singular resource data from `resources[0]`. Returns (attributes committed from
a result element, errored). -/
def dataSourceNcloudServerImageRead {α : Type} (fetched : Option (List α)) :
    Option α × Bool :=
  match fetched with
  | none => (none, true)
  | some resources =>
    if validateOneResult resources.length then (resources[0]?, false)
    else (none, true)

/-- State of the load balancer target group data source read as it returns:
the local id (`""` = unset), the attributes committed from a fetched element,
and whether an error was returned. -/
structure LbTargetGroupReadResult (α : Type) where
  localId : String
  committed : Option α
  errored : Bool
  deriving DecidableEq, Repr

/-- `dataSourceNcloudLbTargetGroupRead` (load balancer target group data
source): if the configuration carries an `id`, seed `d.SetId` with it; fetch
the target group list for that id (`fetch id = none` models an error from
`getVpcLoadBalancerTargetGroupList`); apply the configured filter if present;
require exactly one result via `ValidateOneResult`; then set the id to the
element's `target_group_no` and commit that element's attributes. The
`filtered[0]?` fallback branch is unreachable once the count check passed. -/
def dataSourceNcloudLbTargetGroupRead {α : Type} (configId : Option String)
    (fetch : String → Option (List α)) (filter : Option (List α → List α))
    (targetGroupNo : α → String) : LbTargetGroupReadResult α :=
  let id0 : String := configId.getD ""
  match fetch id0 with
  | none => ⟨id0, none, true⟩
  | some tgList =>
    let filtered := match filter with | some f => f tgList | none => tgList
    if validateOneResult filtered.length then
      match filtered[0]? with
      | some tg => ⟨targetGroupNo tg, some tg, false⟩
      | none => ⟨id0, none, true⟩
    else ⟨id0, none, true⟩

/-! ### Memory size parsing (CDSS node products data source) -/

/-- The digit characters of a base-10 integer literal: everything after an
optional leading sign. -/
def base10Digits (s : String) : List Char :=
  match s.data with
  | '+' :: rest => rest
  | '-' :: rest => rest
  | chars => chars

/-- The sign of a base-10 integer literal: `-1` for a leading `'-'`, else `1`. -/
def base10Sign (s : String) : Int :=
  match s.data with
  | '-' :: _ => -1
  | _ => 1

/-- A syntactically valid base-10 integer literal: an optional sign followed by
one or more ASCII digits (no range restriction). Stated from the claim's words
("a valid base-10 integer"), for comparison with `goAtoi`. -/
def isBase10IntegerLiteral (s : String) : Bool :=
  !(base10Digits s).isEmpty && (base10Digits s).all Char.isDigit

/-- The mathematical value of a base-10 integer literal. -/
def base10Value (s : String) : Int :=
  base10Sign s *
    ((base10Digits s).foldl (fun acc c => acc * 10 + (c.toNat - 48)) 0 : Nat)

/-- Go `strconv.Atoi` (`ParseInt(s, 10, 0)` with the 64-bit `int` of the
platforms this provider targets): an optional sign followed by one or more
ASCII digits, whose signed value must fit in 64 bits; any other input is an
error (`none`), including a syntactically valid literal whose value overflows. -/
def goAtoi (s : String) : Option Int :=
  if isBase10IntegerLiteral s then
    if -(2 ^ 63) ≤ base10Value s ∧ base10Value s ≤ 2 ^ 63 - 1 then
      some (base10Value s)
    else none
  else none

/-- `parseMemorySize` (cdss node products data source, part_006): `strconv.Atoi`
on the input, propagating its error; on success `num / 1024 / 1024 / 1024` with
Go's truncating integer division, rendered by `strconv.Itoa` with `"GB"`
appended. -/
def parseMemorySize (memorySize : String) : Option String :=
  match goAtoi memorySize with
  | none => none
  | some num =>
    some (toString (((num.tdiv 1024).tdiv 1024).tdiv 1024) ++ "GB")

/-! ### Poll loop lemmas -/

lemma runPollAux_ok_pending_cons (conf : PollConf) (s : String)
    (rest : List FetchOutcome) (elapsed calls : Nat)
    (h1 : elapsed < conf.timeout) (hs : s ∈ conf.pending) (hs2 : s ∉ conf.target) :
    runPollAux conf (FetchOutcome.ok s :: rest) elapsed calls =
      runPollAux conf rest (elapsed + conf.minTimeout) (calls + 1) := by
  simp [runPollAux, Nat.not_le.mpr h1, hs, hs2]

lemma runPollAux_skips_pending (conf : PollConf) :
    ∀ (states : List String) (elapsed calls : Nat) (rest : List FetchOutcome),
      (∀ s ∈ states, s ∈ conf.pending ∧ s ∉ conf.target) →
      elapsed + states.length * conf.minTimeout < conf.timeout →
      runPollAux conf (states.map FetchOutcome.ok ++ rest) elapsed calls =
        runPollAux conf rest (elapsed + states.length * conf.minTimeout)
          (calls + states.length)
  | [], elapsed, calls, rest, _, _ => by simp
  | s :: states, elapsed, calls, rest, hp, ht => by
    have hs := hp s (List.mem_cons_self s states)
    have hlen : (s :: states).length = states.length + 1 := List.length_cons s states
    have hmul : (s :: states).length * conf.minTimeout =
        conf.minTimeout + states.length * conf.minTimeout := by
      rw [hlen, Nat.add_mul, Nat.one_mul, Nat.add_comm]
    have h1 : elapsed < conf.timeout := by
      refine Nat.lt_of_le_of_lt (Nat.le_add_right _ _) ht
    have ht' : (elapsed + conf.minTimeout) + states.length * conf.minTimeout <
        conf.timeout := by
      rw [hmul] at ht; omega
    rw [List.map_cons, List.cons_append,
      runPollAux_ok_pending_cons conf s _ elapsed calls h1 hs.1 hs.2,
      runPollAux_skips_pending conf states (elapsed + conf.minTimeout) (calls + 1) rest
        (fun x hx => hp x (List.mem_cons_of_mem s hx)) ht']
    have e1 : elapsed + conf.minTimeout + states.length * conf.minTimeout =
        elapsed + (s :: states).length * conf.minTimeout := by rw [hmul]; omega
    have e2 : calls + 1 + states.length = calls + (s :: states).length := by
      rw [hlen]; omega
    rw [e1, e2]

/-- C1: for every script of N pending states followed by one target state, the
poll session resolves to success with no error after exactly N+1 fetch calls
(provided the schedule completes before the configured timeout); this covers
`waitForSESClusterActive` and `waitForCDSSClusterActive`, whose configurations
instantiate `conf`. -/
theorem poll_pending_then_target_success (conf : PollConf) (states : List String)
    (t : String)
    (hpend : ∀ s ∈ states, s ∈ conf.pending ∧ s ∉ conf.target)
    (ht : t ∈ conf.target)
    (htime : conf.delay + states.length * conf.minTimeout < conf.timeout) :
    runPoll conf (states.map FetchOutcome.ok ++ [FetchOutcome.ok t]) =
      some (.success (states.length + 1)) := by
  unfold runPoll
  rw [runPollAux_skips_pending conf states conf.delay 0 [FetchOutcome.ok t] hpend htime]
  simp [runPollAux, Nat.not_le.mpr htime, ht]

/-- C1 witness: the spec's creation scenario on `waitForSESClusterActive`
(creating, creating, running → success after 3 calls), with the default
one-hour timeout. -/
theorem poll_pending_then_target_success_witness :
    waitForSESClusterActive 3600
      [.found "creating", .found "creating", .found "running"] =
      some (.success 3) :=
  poll_pending_then_target_success (sesClusterActiveConf 3600)
    [SESStatusCreatingCode, SESStatusCreatingCode] SESStatusRunningCode
    (by decide) (by decide) (by decide)

/-- C3: a fetched state outside the pending and target sets resolves the poll
immediately with `UnexpectedState` and the current call count; no further fetch
of the script (`rest`) is consumed. -/
theorem poll_unexpected_state_immediate (conf : PollConf) (states : List String)
    (s : String) (rest : List FetchOutcome)
    (hpend : ∀ x ∈ states, x ∈ conf.pending ∧ x ∉ conf.target)
    (hs1 : s ∉ conf.pending) (hs2 : s ∉ conf.target)
    (htime : conf.delay + states.length * conf.minTimeout < conf.timeout) :
    runPoll conf (states.map FetchOutcome.ok ++ FetchOutcome.ok s :: rest) =
      some (.unexpectedState s (states.length + 1)) := by
  unfold runPoll
  rw [runPollAux_skips_pending conf states conf.delay 0 (FetchOutcome.ok s :: rest)
    hpend htime]
  simp [runPollAux, Nat.not_le.mpr htime, hs1, hs2]

/-- C3 witness: the spec's failure scenario on `waitForCDSSClusterActive`
(creating, then the CDSS "error" status → UnexpectedState after 2 calls), and
the result does not depend on any later script entries. -/
theorem poll_unexpected_state_immediate_witness :
    waitForCDSSClusterActive 3600 [.found "creating", .found "error", .found "running"] =
      some (.unexpectedState "error" 2) :=
  poll_unexpected_state_immediate (cdssClusterActiveConf 3600)
    [CDSSStatusCreating] CDSSStatusError [FetchOutcome.ok CDSSStatusRunning]
    (by decide) (by decide) (by decide) (by decide)

/-- C5: an error from the fetch callback itself resolves the poll immediately
with `FetchFailed` at the current call count; the failing call is not retried
and no further fetch of the script (`rest`) is consumed. -/
theorem poll_fetch_error_immediate (conf : PollConf) (states : List String)
    (rest : List FetchOutcome)
    (hpend : ∀ x ∈ states, x ∈ conf.pending ∧ x ∉ conf.target)
    (htime : conf.delay + states.length * conf.minTimeout < conf.timeout) :
    runPoll conf (states.map FetchOutcome.ok ++ FetchOutcome.err :: rest) =
      some (.fetchFailed (states.length + 1)) := by
  unfold runPoll
  rw [runPollAux_skips_pending conf states conf.delay 0 (FetchOutcome.err :: rest)
    hpend htime]
  simp [runPollAux, Nat.not_le.mpr htime]

/-- C5 witness: a failing `GetSESCluster` on the second poll of
`waitForSESClusterActive` surfaces as `FetchFailed` after 2 calls, regardless of
later script entries. -/
theorem poll_fetch_error_immediate_witness :
    waitForSESClusterActive 3600 [.found "creating", .lookupError, .found "running"] =
      some (.fetchFailed 2) :=
  poll_fetch_error_immediate (sesClusterActiveConf 3600)
    [SESStatusCreatingCode] [FetchOutcome.ok SESStatusRunningCode]
    (by decide) (by decide)

lemma runPollAux_all_pending_timeout (conf : PollConf) (fetches : List FetchOutcome) :
    ∀ (elapsed calls : Nat),
      (∀ f ∈ fetches, ∃ s, f = FetchOutcome.ok s ∧ s ∈ conf.pending ∧ s ∉ conf.target) →
      conf.timeout ≤ elapsed + fetches.length * conf.minTimeout →
      ∃ k, runPollAux conf fetches elapsed calls = some (.timeout (calls + k)) ∧
        k ≤ fetches.length ∧ ∀ j < k, elapsed + j * conf.minTimeout < conf.timeout := by
  induction fetches with
  | nil =>
    intro elapsed calls _ hcov
    refine ⟨0, ?_, Nat.le_refl 0, fun j hj => absurd hj (Nat.not_lt_zero j)⟩
    simp only [List.length_nil, Nat.zero_mul, Nat.add_zero] at hcov
    simp [runPollAux, hcov]
  | cons f rest ih =>
    intro elapsed calls hp hcov
    by_cases he : conf.timeout ≤ elapsed
    · exact ⟨0, by simp [runPollAux, he], Nat.zero_le _,
        fun j hj => absurd hj (Nat.not_lt_zero j)⟩
    · obtain ⟨s, hfs, hsp, hst⟩ := hp f (List.mem_cons_self f rest)
      have hcov' : conf.timeout ≤ (elapsed + conf.minTimeout) +
          rest.length * conf.minTimeout := by
        simp only [List.length_cons, Nat.add_mul, Nat.one_mul] at hcov
        omega
      obtain ⟨k, hrun, hk, hj⟩ := ih (elapsed + conf.minTimeout) (calls + 1)
        (fun x hx => hp x (List.mem_cons_of_mem f hx)) hcov'
      refine ⟨k + 1, ?_, by simpa using Nat.add_le_add_right hk 1, ?_⟩
      · rw [hfs, runPollAux_ok_pending_cons conf s rest elapsed calls
          (Nat.lt_of_not_le he) hsp hst, hrun]
        have : calls + 1 + k = calls + (k + 1) := by omega
        rw [this]
      · intro j hjlt
        cases j with
        | zero => simpa using Nat.lt_of_not_le he
        | succ j' =>
          have := hj j' (by omega)
          have e : elapsed + (j' + 1) * conf.minTimeout =
              (elapsed + conf.minTimeout) + j' * conf.minTimeout := by
            rw [Nat.add_mul, Nat.one_mul]; omega
          rw [e]; exact this

/-- C4: if every fetch of a script long enough to cover the deadline reports a
pending state, the poll session resolves to `Timeout`; every one of the `n`
fetch calls it issued was issued strictly before the deadline (the `k`-th call
at time `delay + k·minTimeout`), i.e. no fetch call is issued at or after it. -/
theorem poll_all_pending_times_out (conf : PollConf) (fetches : List FetchOutcome)
    (hpend : ∀ f ∈ fetches, ∃ s, f = FetchOutcome.ok s ∧ s ∈ conf.pending ∧
      s ∉ conf.target)
    (hcover : conf.timeout ≤ conf.delay + fetches.length * conf.minTimeout) :
    ∃ n, runPoll conf fetches = some (.timeout n) ∧ n ≤ fetches.length ∧
      ∀ k < n, conf.delay + k * conf.minTimeout < conf.timeout := by
  obtain ⟨k, hrun, hk, hj⟩ :=
    runPollAux_all_pending_timeout conf fetches conf.delay 0 hpend hcover
  exact ⟨k, by simpa [runPoll] using hrun, hk, hj⟩

/-- C4 witness: `waitForSESClusterActive` with a 10-second timeout and a
constantly "creating" cluster: fetches at 2, 5, 8 seconds, then timeout. -/
theorem poll_all_pending_times_out_witness :
    ∃ n, runPoll (sesClusterActiveConf 10)
        [.ok "creating", .ok "creating", .ok "creating", .ok "creating"] =
        some (.timeout n) ∧ n ≤ 4 ∧
      ∀ k < n, (sesClusterActiveConf 10).delay +
        k * (sesClusterActiveConf 10).minTimeout < (sesClusterActiveConf 10).timeout :=
  poll_all_pending_times_out (sesClusterActiveConf 10)
    [.ok "creating", .ok "creating", .ok "creating", .ok "creating"]
    (by
      intro f hf
      simp only [List.mem_cons, List.not_mem_nil, or_false] at hf
      rcases hf with h | h | h | h <;>
        exact ⟨"creating", by rw [h], by decide, by decide⟩)
    (by decide)

/-- C2 counterexample: in the deletion polls, two "deleting" states followed by
a not-found lookup (mapped to the "null" sentinel) do NOT yield success after 3
calls: "null" is not in the deletion target set {"return"}, so the third call
resolves to `UnexpectedState "null"`. -/
theorem deletion_notFound_not_target_counterexample :
    waitForSESClusterDeletion 3600 [.found "deleting", .found "deleting", .notFound] =
      some (.unexpectedState "null" 3) ∧
    waitForSESClusterDeletion 3600 [.found "deleting", .found "deleting", .notFound] ≠
      some (.success 3) ∧
    waitForCDSSClusterDeletion 3600 [.found "deleting", .found "deleting", .notFound] ≠
      some (.success 3) := by
  refine ⟨rfl, ?_, ?_⟩ <;> decide

/-- C2 amended: in a deletion poll session, two "deleting" states followed by a
not-found lookup resolve to an `UnexpectedState "null"` error after exactly 3
fetch calls (the null sentinel is not in the target set); deletion is confirmed
(success after 3 calls) when the third lookup instead reports the "return"
status, for any timeout beyond the 8 seconds the three fetches take. -/
theorem deletion_poll_null_unexpected (T : Nat) (hT : 8 < T) :
    waitForSESClusterDeletion T [.found "deleting", .found "deleting", .notFound] =
      some (.unexpectedState "null" 3) ∧
    waitForCDSSClusterDeletion T [.found "deleting", .found "deleting", .notFound] =
      some (.unexpectedState "null" 3) ∧
    waitForSESClusterDeletion T [.found "deleting", .found "deleting", .found "return"] =
      some (.success 3) ∧
    waitForCDSSClusterDeletion T [.found "deleting", .found "deleting", .found "return"] =
      some (.success 3) := by
  have h2 : ¬ (T ≤ 2) := by omega
  have h5 : ¬ (T ≤ 5) := by omega
  have h8 : ¬ (T ≤ 8) := by omega
  refine ⟨?_, ?_, ?_, ?_⟩ <;>
    simp [waitForSESClusterDeletion, waitForCDSSClusterDeletion, runPoll, runPollAux,
      sesClusterDeletionConf, cdssClusterDeletionConf, sesClusterRefresh,
      cdssClusterRefresh, SESStatusNullCode, CDSSStatusNull, SESStatusRunningCode,
      SESStatusDeletingCode, SESStatusReturnCode, CDSSStatusDeleting, CDSSStatusReturn,
      h2, h5, h8]

/-- C2 amended witness: the amended behavior at the default one-hour timeout. -/
theorem deletion_poll_null_unexpected_witness :
    waitForSESClusterDeletion 3600 [.found "deleting", .found "deleting", .notFound] =
      some (.unexpectedState "null" 3) ∧
    waitForCDSSClusterDeletion 3600 [.found "deleting", .found "deleting", .notFound] =
      some (.unexpectedState "null" 3) ∧
    waitForSESClusterDeletion 3600 [.found "deleting", .found "deleting", .found "return"] =
      some (.success 3) ∧
    waitForCDSSClusterDeletion 3600 [.found "deleting", .found "deleting", .found "return"] =
      some (.success 3) :=
  deletion_poll_null_unexpected 3600 (by decide)

/-- C6 counterexample: a "resource not found" style error returned by the fetch
call itself is NOT normalized to the NotFound sentinel by the deletion refresh
functions: it is propagated as a refresh error, and the deletion poll fails with
`FetchFailed` instead of confirming deletion. -/
theorem deletion_fetch_error_not_normalized_counterexample :
    sesClusterRefresh .lookupError = .err ∧
    sesClusterRefresh .lookupError ≠ .ok SESStatusNullCode ∧
    cdssClusterRefresh .lookupError = .err ∧
    cdssClusterRefresh .lookupError ≠ .ok CDSSStatusNull ∧
    waitForSESClusterDeletion 3600 [.lookupError] = some (.fetchFailed 1) ∧
    waitForCDSSClusterDeletion 3600 [.lookupError] = some (.fetchFailed 1) := by
  refine ⟨rfl, ?_, rfl, ?_, rfl, rfl⟩ <;> decide

/-- C6 amended: the deletion refresh functions normalize a successful lookup
that finds no cluster (nil result) to the "null" sentinel state; an error
returned by the fetch call itself is propagated unchanged (the refresh reports
an error exactly on a lookup error), so such an error surfaces as `FetchFailed`
in a deletion poll rather than confirming deletion. -/
theorem deletion_refresh_normalization :
    sesClusterRefresh .notFound = .ok SESStatusNullCode ∧
    cdssClusterRefresh .notFound = .ok CDSSStatusNull ∧
    (∀ lk, sesClusterRefresh lk = .err ↔ lk = .lookupError) ∧
    (∀ lk, cdssClusterRefresh lk = .err ↔ lk = .lookupError) ∧
    waitForSESClusterDeletion 3600 [.lookupError] = some (.fetchFailed 1) ∧
    waitForCDSSClusterDeletion 3600 [.lookupError] = some (.fetchFailed 1) := by
  refine ⟨rfl, rfl, ?_, ?_, rfl, rfl⟩ <;>
    · intro lk
      cases lk <;> simp [sesClusterRefresh, cdssClusterRefresh]

/-- C7: in the cluster create operations, once the modelled session resolves,
an errored run (create API failure or any poll failure) leaves the local
identifier unset (`""`), and a non-errored run committed exactly the id the
create API returned, which only happens when the activation poll reported the
target state (success). -/
theorem cluster_create_no_partial_state (apiResult : Option String) (timeout : Nat)
    (lookups : List ClusterLookup) (localId : String) (errored : Bool) :
    (resourceNcloudSESClusterCreate apiResult timeout lookups = some (localId, errored) →
      (errored = true → localId = "") ∧
      (errored = false → ∃ id, apiResult = some id ∧ localId = id ∧
        ∃ n, waitForSESClusterActive timeout lookups = some (.success n))) ∧
    (resourceNcloudCDSSClusterCreate apiResult timeout lookups = some (localId, errored) →
      (errored = true → localId = "") ∧
      (errored = false → ∃ id, apiResult = some id ∧ localId = id ∧
        ∃ n, waitForCDSSClusterActive timeout lookups = some (.success n))) := by
  constructor
  · intro h
    unfold resourceNcloudSESClusterCreate at h
    cases apiResult with
    | none =>
      simp only [Option.some.injEq, Prod.mk.injEq] at h
      constructor
      · intro _; exact h.1.symm
      · intro he; rw [← h.2] at he; exact absurd he (by simp)
    | some id =>
      rcases hw : waitForSESClusterActive timeout lookups with _ | r
      · rw [hw] at h; exact absurd h (by simp)
      · rw [hw] at h
        cases r with
        | success n =>
          simp only [Option.some.injEq, Prod.mk.injEq] at h
          refine ⟨fun he => ?_, fun _ => ⟨id, rfl, h.1.symm, n, rfl⟩⟩
          rw [← h.2] at he; exact absurd he (by simp)
        | fetchFailed n =>
          simp only [Option.some.injEq, Prod.mk.injEq] at h
          refine ⟨fun _ => h.1.symm, fun he => ?_⟩
          rw [← h.2] at he; exact absurd he (by simp)
        | unexpectedState s n =>
          simp only [Option.some.injEq, Prod.mk.injEq] at h
          refine ⟨fun _ => h.1.symm, fun he => ?_⟩
          rw [← h.2] at he; exact absurd he (by simp)
        | timeout n =>
          simp only [Option.some.injEq, Prod.mk.injEq] at h
          refine ⟨fun _ => h.1.symm, fun he => ?_⟩
          rw [← h.2] at he; exact absurd he (by simp)
  · intro h
    unfold resourceNcloudCDSSClusterCreate at h
    cases apiResult with
    | none =>
      simp only [Option.some.injEq, Prod.mk.injEq] at h
      constructor
      · intro _; exact h.1.symm
      · intro he; rw [← h.2] at he; exact absurd he (by simp)
    | some id =>
      rcases hw : waitForCDSSClusterActive timeout lookups with _ | r
      · rw [hw] at h; exact absurd h (by simp)
      · rw [hw] at h
        cases r with
        | success n =>
          simp only [Option.some.injEq, Prod.mk.injEq] at h
          refine ⟨fun he => ?_, fun _ => ⟨id, rfl, h.1.symm, n, rfl⟩⟩
          rw [← h.2] at he; exact absurd he (by simp)
        | fetchFailed n =>
          simp only [Option.some.injEq, Prod.mk.injEq] at h
          refine ⟨fun _ => h.1.symm, fun he => ?_⟩
          rw [← h.2] at he; exact absurd he (by simp)
        | unexpectedState s n =>
          simp only [Option.some.injEq, Prod.mk.injEq] at h
          refine ⟨fun _ => h.1.symm, fun he => ?_⟩
          rw [← h.2] at he; exact absurd he (by simp)
        | timeout n =>
          simp only [Option.some.injEq, Prod.mk.injEq] at h
          refine ⟨fun _ => h.1.symm, fun he => ?_⟩
          rw [← h.2] at he; exact absurd he (by simp)

/-- C7 witness: a create whose cluster is immediately running commits exactly
the id the create API returned. -/
theorem cluster_create_no_partial_state_witness :
    ∃ id, (some "123" : Option String) = some id ∧ ("123" : String) = id ∧
      ∃ n, waitForSESClusterActive 3600 [.found "running"] = some (.success n) :=
  ((cluster_create_no_partial_state (some "123") 3600 [.found "running"]
    "123" false).1 (by decide)).2 rfl

/-! ### Node-count update lemmas -/

lemma wrap32_eq_self (x : Int) (h1 : -(2 ^ 31) ≤ x) (h2 : x < 2 ^ 31) :
    wrap32 x = x := by
  unfold wrap32; omega

/-- C8: for the node-count update checks, (1) a strict decrease of the count in
a changed node block returns the respective "cannot be decreased" error with no
node-change API call issued; (2,3) whenever an add-nodes request is issued, the
count strictly increased and the request carries exactly the difference (for
SES rendered by `strconv.Itoa`, for CDSS as the int32 itself); (4) equal counts
issue no node-change API call and return no error. Counts are the int32 values
read from the schema (nonnegative and below 2^31). -/
theorem nodeCountChanged_correct (hc w1 a w2 : Bool) (oldCount newCount : Int)
    (h1 : 0 ≤ oldCount) (h2 : oldCount < 2 ^ 31)
    (h3 : 0 ≤ newCount) (h4 : newCount < 2 ^ 31) :
    (hc = true → newCount < oldCount →
      checkDataNodeChanged hc oldCount newCount w1 a w2 =
        ⟨none, some "data node count cannot be decreased"⟩ ∧
      checkNodeCountChanged hc oldCount newCount w1 a w2 =
        ⟨none, some "broker node count cannot be decreased"⟩) ∧
    (∀ req, (checkDataNodeChanged hc oldCount newCount w1 a w2).issued = some req →
      oldCount < newCount ∧ req = toString (newCount - oldCount)) ∧
    (∀ req, (checkNodeCountChanged hc oldCount newCount w1 a w2).issued = some req →
      oldCount < newCount ∧ req = newCount - oldCount) ∧
    (oldCount = newCount →
      checkDataNodeChanged hc oldCount newCount w1 a w2 = ⟨none, none⟩ ∧
      checkNodeCountChanged hc oldCount newCount w1 a w2 = ⟨none, none⟩) := by
  have hw : wrap32 (newCount - oldCount) = newCount - oldCount :=
    wrap32_eq_self _ (by omega) (by omega)
  refine ⟨?_, ?_, ?_, ?_⟩
  · intro hhc hdec
    subst hhc
    have h5 : ¬ (oldCount < newCount) := by omega
    exact ⟨by simp [checkDataNodeChanged, h5, hdec],
      by simp [checkNodeCountChanged, h5, hdec]⟩
  · intro req hreq
    rcases lt_trichotomy oldCount newCount with h | h | h
    · refine ⟨h, ?_⟩
      cases hc <;> cases w1 <;> cases a <;> cases w2 <;>
        simp_all [checkDataNodeChanged, hw, h]
    · exfalso
      cases hc <;> simp_all [checkDataNodeChanged, h]
    · exfalso
      cases hc <;>
        simp_all [checkDataNodeChanged, show ¬ (oldCount < newCount) by omega]
  · intro req hreq
    rcases lt_trichotomy oldCount newCount with h | h | h
    · refine ⟨h, ?_⟩
      cases hc <;> cases w1 <;> cases a <;> cases w2 <;>
        simp_all [checkNodeCountChanged, hw, h]
    · exfalso
      cases hc <;> simp_all [checkNodeCountChanged, h]
    · exfalso
      cases hc <;>
        simp_all [checkNodeCountChanged, show ¬ (oldCount < newCount) by omega]
  · intro heq
    subst heq
    constructor <;> cases hc <;>
      simp [checkDataNodeChanged, checkNodeCountChanged]

/-- C8 witness: a data-node increase from 3 to 5 issues an add-nodes request
carrying exactly "2". -/
theorem nodeCountChanged_correct_witness :
    (3 : Int) < 5 ∧ "2" = toString ((5 : Int) - 3) :=
  (nodeCountChanged_correct true true true true 3 5 (by decide) (by decide)
    (by decide) (by decide)).2.1 "2" (by decide)

/-! ### Singular data source theorems -/

/-- C9: both singular data source reads succeed exactly when the (filtered)
result list has exactly one element; on exactly one element the local state is
set from that element (for the target group: id and attributes); on zero or
several elements an error is returned and no attributes from the result list
are committed. -/
theorem singular_data_source_one_result {α : Type}
    (resources tgList filtered : List α) (configId : Option String)
    (fetch : String → Option (List α)) (filter : Option (List α → List α))
    (tgNo : α → String)
    (hf : fetch (configId.getD "") = some tgList)
    (hfil : (match filter with | some f => f tgList | none => tgList) = filtered) :
    ((dataSourceNcloudServerImageRead (some resources)).2 = false ↔
      resources.length = 1) ∧
    (∀ x, resources = [x] →
      dataSourceNcloudServerImageRead (some resources) = (some x, false)) ∧
    (resources.length ≠ 1 →
      (dataSourceNcloudServerImageRead (some resources)).1 = none) ∧
    ((dataSourceNcloudLbTargetGroupRead configId fetch filter tgNo).errored = false ↔
      filtered.length = 1) ∧
    (∀ x, filtered = [x] →
      dataSourceNcloudLbTargetGroupRead configId fetch filter tgNo =
        ⟨tgNo x, some x, false⟩) ∧
    (filtered.length ≠ 1 →
      (dataSourceNcloudLbTargetGroupRead configId fetch filter tgNo).committed =
        none) := by
  have hlb : dataSourceNcloudLbTargetGroupRead configId fetch filter tgNo =
      (if validateOneResult filtered.length then
        match filtered[0]? with
        | some tg => ⟨tgNo tg, some tg, false⟩
        | none => ⟨configId.getD "", none, true⟩
      else ⟨configId.getD "", none, true⟩) := by
    simp only [dataSourceNcloudLbTargetGroupRead, hf, hfil]
  refine ⟨?_, ?_, ?_, ?_, ?_, ?_⟩
  · by_cases h : resources.length = 1
    · simp [dataSourceNcloudServerImageRead, validateOneResult, h]
    · simp [dataSourceNcloudServerImageRead, validateOneResult, beq_iff_eq, h]
  · intro x hx
    subst hx
    simp [dataSourceNcloudServerImageRead, validateOneResult]
  · intro h
    simp [dataSourceNcloudServerImageRead, validateOneResult, beq_iff_eq, h]
  · rw [hlb]
    by_cases hlen : filtered.length = 1
    · obtain ⟨x, hx⟩ := List.length_eq_one.mp hlen
      subst hx
      simp [validateOneResult]
    · simp [validateOneResult, beq_iff_eq, hlen]
  · intro x hx
    subst hx
    rw [hlb]
    simp [validateOneResult]
  · intro hlen
    rw [hlb]
    simp [validateOneResult, beq_iff_eq, hlen]

/-- C9 witness: a one-element result list is committed by both reads. -/
theorem singular_data_source_one_result_witness :
    dataSourceNcloudServerImageRead (some [(7 : Nat)]) = (some 7, false) ∧
    dataSourceNcloudLbTargetGroupRead none (fun _ => some [(7 : Nat)]) none toString =
      ⟨"7", some 7, false⟩ := by
  have h := @singular_data_source_one_result Nat [7] [7] [7] none
    (fun _ => some [7]) none toString rfl rfl
  exact ⟨h.2.1 7 rfl, h.2.2.2.2.1 7 rfl⟩

/-! ### parseMemorySize theorems -/

lemma tdiv_natCast_natCast (n : Int) (a b : Nat) :
    (n.tdiv (a : Int)).tdiv (b : Int) = n.tdiv ((a * b : Nat) : Int) := by
  cases n with
  | ofNat m =>
    rw [Int.ofNat_eq_natCast, ← Int.ofNat_tdiv, ← Int.ofNat_tdiv, ← Int.ofNat_tdiv,
      Nat.div_div_eq_div_mul]
  | negSucc m =>
    have h : (Int.negSucc m) = -((m + 1 : Nat) : Int) := rfl
    rw [h, Int.neg_tdiv, Int.neg_tdiv, Int.neg_tdiv, ← Int.ofNat_tdiv, ← Int.ofNat_tdiv,
      ← Int.ofNat_tdiv, Nat.div_div_eq_div_mul]

/-- Go's `num / 1024 / 1024 / 1024` (truncating division at each step) is
truncation toward zero of `num` over `2^30`. -/
lemma tdiv_1024_cube (n : Int) :
    ((n.tdiv 1024).tdiv 1024).tdiv 1024 = n.tdiv (2 ^ 30) := by
  have h1 : (1024 : Int) = ((1024 : Nat) : Int) := by norm_num
  rw [h1, tdiv_natCast_natCast, tdiv_natCast_natCast]
  norm_num

/-- C10 counterexample: `"9223372036854775808"` (2^63) is a valid base-10
integer, yet `parseMemorySize` returns an error on it (it overflows the 64-bit
`int` of `strconv.Atoi`), so "error exactly when not a valid base-10 integer"
fails as stated. -/
theorem parseMemorySize_overflow_counterexample :
    isBase10IntegerLiteral "9223372036854775808" = true ∧
    parseMemorySize "9223372036854775808" = none := by
  constructor <;> decide

/-- C10 amended: `parseMemorySize s` errors exactly when `s` is not a valid
base-10 integer whose value fits the signed 64-bit `int` range; otherwise, for
the parsed value `n`, it returns the truncating division of `n` by `2^30`
(toward zero) rendered in base 10, followed by `"GB"`. -/
theorem parseMemorySize_correct (s : String) :
    (parseMemorySize s = none ↔
      (isBase10IntegerLiteral s = false ∨ base10Value s < -(2 ^ 63) ∨
        2 ^ 63 - 1 < base10Value s)) ∧
    (isBase10IntegerLiteral s = true → -(2 ^ 63) ≤ base10Value s →
      base10Value s ≤ 2 ^ 63 - 1 →
      parseMemorySize s =
        some (toString ((base10Value s).tdiv (2 ^ 30)) ++ "GB")) := by
  constructor
  · by_cases hv : isBase10IntegerLiteral s = true
    · by_cases hr : -(2 ^ 63) ≤ base10Value s ∧ base10Value s ≤ 2 ^ 63 - 1
      · have hpm : parseMemorySize s =
            some (toString ((base10Value s).tdiv (2 ^ 30)) ++ "GB") := by
          unfold parseMemorySize goAtoi
          split_ifs
          simp [tdiv_1024_cube]
        rw [hpm]
        constructor
        · intro h; exact absurd h (by simp)
        · rintro (h | h | h)
          · rw [hv] at h; exact Bool.noConfusion h
          · exact absurd h (by omega)
          · exact absurd h (by omega)
      · have hpm : parseMemorySize s = none := by
          unfold parseMemorySize goAtoi
          split_ifs
          rfl
        rw [hpm]
        constructor
        · intro _
          right
          omega
        · intro _; rfl
    · have hv' : isBase10IntegerLiteral s = false := by
        revert hv; cases isBase10IntegerLiteral s <;> simp
      simp [parseMemorySize, goAtoi, hv']
  · intro hv hr1 hr2
    unfold parseMemorySize goAtoi
    split_ifs with h
    · simp [tdiv_1024_cube]
    · exact absurd ⟨hr1, hr2⟩ h

/-- C10 witness: `"4294967296"` (4 GiB in bytes) parses and yields `"4GB"`. -/
theorem parseMemorySize_correct_witness :
    parseMemorySize "4294967296" =
      some (toString ((base10Value "4294967296").tdiv (2 ^ 30)) ++ "GB") :=
  (parseMemorySize_correct "4294967296").2 (by decide) (by decide) (by decide)

end Ncloud
